import Mathlib

/-!
Verification of the planning-poker room session synchronization engine.

The definitions below are a shallow embedding of the server core:
`src/server/socketHandlers.ts` (protocol event handlers) and
`src/server/roomStore.ts` (serialization and the durable room store).
JavaScript `Map`s are embedded as insertion-ordered association lists with
replace-in-place `set` semantics; `number` values are embedded as `Int`;
`Date.now()` and random token generation are passed in as explicit
parameters; the durable store is an explicit record of key spaces.
-/

namespace PlanningPoker

-- JavaScript Map semantics over insertion-ordered association lists.
namespace JMap

variable {α : Type}

/-- `Map.prototype.get`. -/
def get (m : List (String × α)) (k : String) : Option α :=
  (m.find? (fun e => e.1 == k)).map (fun e => e.2)

/-- `Map.prototype.has`. -/
def has (m : List (String × α)) (k : String) : Bool :=
  m.any (fun e => e.1 == k)

/-- `Map.prototype.set`: replace the existing slot in place, else append. -/
def set : List (String × α) → String → α → List (String × α)
  | [], k, v => [(k, v)]
  | e :: rest, k, v => if e.1 == k then (k, v) :: rest else e :: set rest k v

/-- `Map.prototype.delete` (by key; keys are unique in a real `Map`). -/
def del (m : List (String × α)) (k : String) : List (String × α) :=
  m.filter (fun e => e.1 != k)

/-- Deleting each key of a list in order. -/
def delAll (m : List (String × α)) (ks : List String) : List (String × α) :=
  ks.foldl (fun acc k => del acc k) m

end JMap

/-- `RoomSettings` from `src/types/shared.ts`. -/
structure RoomSettings where
  estimateOptions : List Int
  allowOthersToShowEstimates : Bool
  allowOthersToDeleteEstimates : Bool
  allowOthersToClearUsers : Bool
  showTimer : Bool
  timerDuration : Int
  showAverage : Bool
  showUserPresence : Bool
deriving Repr, DecidableEq

/-- `DEFAULT_SETTINGS` from `src/types/shared.ts`. -/
def DEFAULT_SETTINGS : RoomSettings :=
  { estimateOptions := [1, 2, 3, 5, 8, 13, 20, 40]
    allowOthersToShowEstimates := false
    allowOthersToDeleteEstimates := false
    allowOthersToClearUsers := false
    showTimer := true
    timerDuration := 15
    showAverage := true
    showUserPresence := true }

/-- The wire-level `Participant` from `src/types/shared.ts` (no socket handle). -/
structure Participant where
  sessionId : String
  displayName : String
  isAdmin : Bool
  isConnected : Bool
  hasVoted : Bool
deriving Repr, DecidableEq

/-- `ServerParticipant` from `src/server/types.ts`: wire fields plus the
ephemeral connection handle. -/
structure ServerParticipant where
  sessionId : String
  displayName : String
  isAdmin : Bool
  isConnected : Bool
  hasVoted : Bool
  socketId : String
deriving Repr, DecidableEq

/-- The `({ socketId, ...rest }) => rest` projection used by `buildRoomState`. -/
def stripSocket (p : ServerParticipant) : Participant :=
  { sessionId := p.sessionId
    displayName := p.displayName
    isAdmin := p.isAdmin
    isConnected := p.isConnected
    hasVoted := p.hasVoted }

/-- A `Vote` entry from `src/types/shared.ts`. -/
structure Vote where
  sessionId : String
  value : Int
deriving Repr, DecidableEq

/-- `RoomState`, the full-snapshot wire contract from `src/types/shared.ts`. -/
structure RoomState where
  roomId : String
  settings : RoomSettings
  participants : List Participant
  votes : List Vote
  isRevealed : Bool
  timerStartedAt : Option Int
deriving Repr, DecidableEq

/-- `ServerRoom` from `src/server/types.ts`: the central aggregate.
The timer handle returned by `setTimeout` is embedded as an opaque `Nat`. -/
structure ServerRoom where
  roomId : String
  adminToken : String
  adminSessionId : String
  settings : RoomSettings
  participants : List (String × ServerParticipant)
  votes : List (String × Int)
  isRevealed : Bool
  timerStartedAt : Option Int
  createdAt : Int
  ttl : Int
  lastAccessedAt : Int
  adminDisconnectTimer : Option Nat
deriving Repr, DecidableEq

/-- `displayName.trim().slice(0, 20)` as applied on every join. -/
def trimSlice (s : String) : String :=
  (s.trim).take 20

/-- `isAdmin` from `socketHandlers.ts`: a truthy token equal to the room's
admin token (JS `!!adminToken && room.adminToken === adminToken`). -/
def isAdmin (room : ServerRoom) (adminToken : Option String) : Bool :=
  match adminToken with
  | none => false
  | some t => !(t == "") && (room.adminToken == t)

/-- `roomHasAdmin` from `roomStore.ts`: some participant is simultaneously
admin-flagged and connected. -/
def roomHasAdmin (room : ServerRoom) : Bool :=
  room.participants.any (fun e => e.2.isAdmin && e.2.isConnected)

/-- `buildRoomState` on a present room: participants stripped of socket
handles, votes listed only when revealed. -/
def buildRoomStateCore (room : ServerRoom) : RoomState :=
  { roomId := room.roomId
    settings := room.settings
    participants := room.participants.map (fun e => stripSocket e.2)
    votes :=
      if room.isRevealed then
        room.votes.map (fun e => { sessionId := e.1, value := e.2 })
      else []
    isRevealed := room.isRevealed
    timerStartedAt := room.timerStartedAt }

/-- `buildRoomState` from `socketHandlers.ts` (`null` for a missing room). -/
def buildRoomState (room : Option ServerRoom) : Option RoomState :=
  room.map buildRoomStateCore

/-- Destination of an outbound emit: `socket.emit` (caller only),
`io.to(roomId).emit` (whole room), `socket.to(roomId).emit` (others). -/
inductive Dest
  | caller
  | room
  | othersInRoom
deriving Repr, DecidableEq

/-- Outbound server-to-client events from `src/types/shared.ts`. -/
inductive OutEvent
  | roomState (s : RoomState)
  | participantJoined (p : Participant)
  | participantLeft (sid : String)
  | participantUpdated (p : Participant)
  | voteCast (sid : String) (hasVoted : Bool)
  | votesRevealed (vs : List Vote)
  | votesReset
  | settingsUpdated (s : RoomSettings)
  | timerStarted (t : Int)
  | timerStopped
  | adminDisconnected
  | adminReconnected
  | roomClosed
  | errorMsg (msg : String)
deriving Repr, DecidableEq

/-- An emitted event together with its destination. -/
abbrev Emit := Dest × OutEvent

/-- A handler's result: the room as left behind (none when no room was
found) and the emitted events in order. -/
abbrev HandlerResult := Option ServerRoom × List Emit

/-- Payload of the inbound `join-room` event. -/
structure JoinRoomPayload where
  roomId : String
  displayName : String
  sessionId : String
  adminToken : Option String
deriving Repr, DecidableEq

/-- Session ids removed by the cleanup loop on admin reconnect: every
disconnected participant other than the reconnecting session. -/
def removedDisconnected (keep : String) (parts : List (String × ServerParticipant)) :
    List String :=
  (parts.filter (fun e => !e.2.isConnected && e.1 != keep)).map (fun e => e.1)

/-- Participants surviving that cleanup loop. -/
def keepConnectedOr (keep : String) (parts : List (String × ServerParticipant)) :
    List (String × ServerParticipant) :=
  parts.filter (fun e => e.2.isConnected || e.1 == keep)

/-- The `join-room` handler from `socketHandlers.ts`. -/
def joinRoomHandler (roomOpt : Option ServerRoom) (socketId : String)
    (p : JoinRoomPayload) : HandlerResult :=
  match roomOpt with
  | none => (none, [(Dest.caller, OutEvent.errorMsg ("Room not found"))])
  | some room =>
    let existing := JMap.get room.participants p.sessionId
    -- Check if this is an admin reconnect
    let isAdminReconnect := isAdmin room p.adminToken
    -- Reject participants if room has no admin (unless this IS the admin)
    if !isAdminReconnect && !roomHasAdmin room then
      (some room, [(Dest.caller, OutEvent.errorMsg ("Waiting for admin"))])
    -- Reject new participants if room is full (reconnections are always allowed)
    else if existing.isNone && decide (room.participants.length ≥ 10) then
      (some room, [(Dest.caller, OutEvent.errorMsg ("Room is full (max 10 participants)"))])
    else
      match existing with
      | some ex =>
        -- Reconnection
        let ex1 : ServerParticipant :=
          { ex with
            socketId := socketId
            isConnected := true
            displayName := trimSlice p.displayName }
        let room1 := { room with participants := JMap.set room.participants p.sessionId ex1 }
        -- If admin is reconnecting, cancel the disconnect timer and notify participants
        if ex1.isAdmin && room1.adminDisconnectTimer.isSome then
          let removed := removedDisconnected p.sessionId room1.participants
          let room2 :=
            { room1 with
              adminDisconnectTimer := none
              participants := keepConnectedOr p.sessionId room1.participants
              votes := JMap.delAll room1.votes removed }
          (some room2,
            (removed.map (fun sid => (Dest.room, OutEvent.participantLeft sid)))
              ++ [(Dest.room, OutEvent.adminReconnected),
                  (Dest.caller, OutEvent.roomState (buildRoomStateCore room2))])
        else
          (some room1, [(Dest.caller, OutEvent.roomState (buildRoomStateCore room1))])
      | none =>
        -- Only treat as admin reconnect if the actual admin is disconnected
        let currentAdmin := (room.participants.find? (fun e => e.2.isAdmin)).map (fun e => e.2)
        let isAdminReconnectNew :=
          isAdmin room p.adminToken &&
            (match currentAdmin with
             | none => true
             | some ca => !ca.isConnected)
        let participant : ServerParticipant :=
          { sessionId := p.sessionId
            displayName := trimSlice p.displayName
            isAdmin := isAdminReconnectNew
            isConnected := true
            hasVoted := JMap.has room.votes p.sessionId
            socketId := socketId }
        let room1 := { room with participants := JMap.set room.participants p.sessionId participant }
        match currentAdmin with
        | some ca =>
          if isAdminReconnectNew then
            -- Remove the old admin participant completely
            -- (the source deletes only the participant row, not the vote)
            let room2 := { room1 with participants := JMap.del room1.participants ca.sessionId }
            if room2.adminDisconnectTimer.isSome then
              let removed := removedDisconnected p.sessionId room2.participants
              let room3 :=
                { room2 with
                  adminDisconnectTimer := none
                  participants := keepConnectedOr p.sessionId room2.participants
                  votes := JMap.delAll room2.votes removed
                  adminSessionId := p.sessionId }
              (some room3,
                (removed.map (fun sid => (Dest.othersInRoom, OutEvent.participantLeft sid)))
                  ++ [(Dest.room, OutEvent.adminReconnected),
                      (Dest.othersInRoom, OutEvent.participantLeft ca.sessionId),
                      (Dest.othersInRoom, OutEvent.participantJoined (stripSocket participant)),
                      (Dest.caller, OutEvent.roomState (buildRoomStateCore room3))])
            else
              let room3 := { room2 with adminSessionId := p.sessionId }
              (some room3,
                [(Dest.othersInRoom, OutEvent.participantLeft ca.sessionId),
                 (Dest.othersInRoom, OutEvent.participantJoined (stripSocket participant)),
                 (Dest.caller, OutEvent.roomState (buildRoomStateCore room3))])
          else
            (some room1,
              [(Dest.othersInRoom, OutEvent.participantJoined (stripSocket participant)),
               (Dest.caller, OutEvent.roomState (buildRoomStateCore room1))])
        | none =>
          (some room1,
            [(Dest.othersInRoom, OutEvent.participantJoined (stripSocket participant)),
             (Dest.caller, OutEvent.roomState (buildRoomStateCore room1))])

/-- The `vote` handler: silently ignored when revealed or session unknown;
no validation of the value against the configured estimate options. -/
def voteHandler (roomOpt : Option ServerRoom) (sessionId : String) (value : Int) :
    HandlerResult :=
  match roomOpt with
  | none => (none, [])
  | some room =>
    if room.isRevealed then (some room, [])
    else
      match JMap.get room.participants sessionId with
      | none => (some room, [])
      | some p =>
        (some { room with
                  votes := JMap.set room.votes sessionId value
                  participants :=
                    JMap.set room.participants sessionId { p with hasVoted := true } },
          [(Dest.room, OutEvent.voteCast sessionId true)])

/-- The `reveal` handler. -/
def revealHandler (roomOpt : Option ServerRoom) (token : Option String) : HandlerResult :=
  match roomOpt with
  | none => (none, [])
  | some room =>
    if !(isAdmin room token) && !room.settings.allowOthersToShowEstimates then
      (some room, [(Dest.caller, OutEvent.errorMsg ("Not authorized"))])
    else
      (some { room with isRevealed := true },
        [(Dest.room, OutEvent.votesRevealed
            (room.votes.map (fun e => { sessionId := e.1, value := e.2 })))])

/-- The `reset` handler. -/
def resetHandler (roomOpt : Option ServerRoom) (token : Option String) : HandlerResult :=
  match roomOpt with
  | none => (none, [])
  | some room =>
    if !(isAdmin room token) && !room.settings.allowOthersToDeleteEstimates then
      (some room, [(Dest.caller, OutEvent.errorMsg ("Not authorized"))])
    else
      (some { room with
                votes := []
                isRevealed := false
                timerStartedAt := none
                participants :=
                  room.participants.map (fun e => (e.1, { e.2 with hasVoted := false })) },
        [(Dest.room, OutEvent.votesReset)])

/-- A partial settings object, one optional field per setting
(the duck-typed `Partial<RoomSettings>` merge payload). -/
structure SettingsPatch where
  estimateOptions : Option (List Int) := none
  allowOthersToShowEstimates : Option Bool := none
  allowOthersToDeleteEstimates : Option Bool := none
  allowOthersToClearUsers : Option Bool := none
  showTimer : Option Bool := none
  timerDuration : Option Int := none
  showAverage : Option Bool := none
  showUserPresence : Option Bool := none
deriving Repr, DecidableEq

/-- The object spread `{ ...room.settings, ...settings }`. -/
def applySettingsPatch (s : RoomSettings) (p : SettingsPatch) : RoomSettings :=
  { estimateOptions := p.estimateOptions.getD s.estimateOptions
    allowOthersToShowEstimates := p.allowOthersToShowEstimates.getD s.allowOthersToShowEstimates
    allowOthersToDeleteEstimates := p.allowOthersToDeleteEstimates.getD s.allowOthersToDeleteEstimates
    allowOthersToClearUsers := p.allowOthersToClearUsers.getD s.allowOthersToClearUsers
    showTimer := p.showTimer.getD s.showTimer
    timerDuration := p.timerDuration.getD s.timerDuration
    showAverage := p.showAverage.getD s.showAverage
    showUserPresence := p.showUserPresence.getD s.showUserPresence }

/-- The `update-settings` handler. The option-list comparison embeds
`JSON.stringify(a) !== JSON.stringify(b)` on numeric arrays as list
inequality. -/
def updateSettingsHandler (roomOpt : Option ServerRoom) (token : Option String)
    (patch : SettingsPatch) : HandlerResult :=
  match roomOpt with
  | none => (none, [(Dest.caller, OutEvent.errorMsg ("Not authorized"))])
  | some room =>
    if !(isAdmin room token) then
      (some room, [(Dest.caller, OutEvent.errorMsg ("Not authorized"))])
    else
      -- If estimate options changed, reset all votes
      let optsChanged :=
        match patch.estimateOptions with
        | none => false
        | some opts => !(opts == room.settings.estimateOptions)
      let room1 :=
        if optsChanged then
          { room with
              votes := []
              isRevealed := false
              participants :=
                room.participants.map (fun e => (e.1, { e.2 with hasVoted := false })) }
        else room
      let room2 := { room1 with settings := applySettingsPatch room1.settings patch }
      (some room2,
        [(Dest.room, OutEvent.settingsUpdated room2.settings)]
          ++ (if patch.estimateOptions.isSome then [(Dest.room, OutEvent.votesReset)] else []))

/-- The `delete-estimate` handler; `callerSession` is
`getSocketInfo(socket.id)?.sessionId`. -/
def deleteEstimateHandler (roomOpt : Option ServerRoom) (callerSession : Option String)
    (token : Option String) (targetSessionId : String) : HandlerResult :=
  match roomOpt with
  | none => (none, [])
  | some room =>
    -- Allow users to delete their own estimate; otherwise require admin or permission
    let isOwnEstimate :=
      match callerSession with
      | some s => s == targetSessionId
      | none => false
    if !isOwnEstimate && !(isAdmin room token) &&
        !room.settings.allowOthersToDeleteEstimates then
      (some room, [(Dest.caller, OutEvent.errorMsg ("Not authorized"))])
    else
      let votes1 := JMap.del room.votes targetSessionId
      let participants1 :=
        match JMap.get room.participants targetSessionId with
        | some q => JMap.set room.participants targetSessionId { q with hasVoted := false }
        | none => room.participants
      (some { room with votes := votes1, participants := participants1 },
        [(Dest.room, OutEvent.voteCast targetSessionId false)])

/-- The `clear-user` handler. -/
def clearUserHandler (roomOpt : Option ServerRoom) (token : Option String)
    (targetSessionId : String) : HandlerResult :=
  match roomOpt with
  | none => (none, [])
  | some room =>
    if !(isAdmin room token) && !room.settings.allowOthersToClearUsers then
      (some room, [(Dest.caller, OutEvent.errorMsg ("Not authorized"))])
    else
      match JMap.get room.participants targetSessionId with
      | some target =>
        -- Don't allow removing the admin
        if target.isAdmin then
          (some room, [(Dest.caller, OutEvent.errorMsg ("Cannot remove admin"))])
        else
          (some { room with
                    participants := JMap.del room.participants targetSessionId
                    votes := JMap.del room.votes targetSessionId },
            [(Dest.room, OutEvent.participantLeft targetSessionId)])
      | none =>
        (some { room with
                  participants := JMap.del room.participants targetSessionId
                  votes := JMap.del room.votes targetSessionId },
          [(Dest.room, OutEvent.participantLeft targetSessionId)])

/-- The `clear-all-participants` handler. -/
def clearAllParticipantsHandler (roomOpt : Option ServerRoom) (token : Option String) :
    HandlerResult :=
  match roomOpt with
  | none => (none, [(Dest.caller, OutEvent.errorMsg ("Not authorized"))])
  | some room =>
    if !(isAdmin room token) then
      (some room, [(Dest.caller, OutEvent.errorMsg ("Not authorized"))])
    else
      -- Remove all non-admin participants
      let toRemove := (room.participants.filter (fun e => !e.2.isAdmin)).map (fun e => e.1)
      (some { room with
                participants := room.participants.filter (fun e => e.2.isAdmin)
                votes := JMap.delAll room.votes toRemove },
        toRemove.map (fun sid => (Dest.room, OutEvent.participantLeft sid)))

/-- The `start-timer` handler (silent when unauthorized). -/
def startTimerHandler (roomOpt : Option ServerRoom) (token : Option String) (now : Int) :
    HandlerResult :=
  match roomOpt with
  | none => (none, [])
  | some room =>
    if !(isAdmin room token) then (some room, [])
    else
      (some { room with timerStartedAt := some now },
        [(Dest.room, OutEvent.timerStarted now)])

/-- The `stop-timer` handler (silent when unauthorized). -/
def stopTimerHandler (roomOpt : Option ServerRoom) (token : Option String) : HandlerResult :=
  match roomOpt with
  | none => (none, [])
  | some room =>
    if !(isAdmin room token) then (some room, [])
    else
      (some { room with timerStartedAt := none },
        [(Dest.room, OutEvent.timerStopped)])

/-- The `disconnect` handler; `info` is the `unregisterSocket` result and
the fresh `setTimeout` handle is embedded as `some 0`. -/
def disconnectHandler (info : Option (String × String)) (roomOpt : Option ServerRoom) :
    HandlerResult :=
  match info with
  | none => (roomOpt, [])
  | some (_, sessionId) =>
    match roomOpt with
    | none => (none, [])
    | some room =>
      match JMap.get room.participants sessionId with
      | none => (some room, [])
      | some p =>
        let p1 := { p with isConnected := false, socketId := "" }
        let room1 := { room with participants := JMap.set room.participants sessionId p1 }
        if p1.isAdmin then
          (some { room1 with adminDisconnectTimer := some 0 },
            [(Dest.room, OutEvent.participantUpdated (stripSocket p1)),
             (Dest.room, OutEvent.adminDisconnected)])
        else
          (some room1, [(Dest.room, OutEvent.participantUpdated (stripSocket p1))])

/-- `SerializedParticipant` from `src/server/types.ts`: the socket handle is
intentionally omitted. -/
structure SerializedParticipant where
  sessionId : String
  displayName : String
  isAdmin : Bool
  isConnected : Bool
  hasVoted : Bool
deriving Repr, DecidableEq

/-- `SerializedRoom` from `src/server/types.ts`: the persisted record layout
(participants and votes as field-keyed objects). The JSON encode/decode pair
`JSON.stringify`/`JSON.parse` is the identity on this record. -/
structure SerializedRoom where
  roomId : String
  adminToken : String
  adminSessionId : String
  settings : RoomSettings
  participants : List (String × SerializedParticipant)
  votes : List (String × Int)
  isRevealed : Bool
  timerStartedAt : Option Int
  createdAt : Int
  ttl : Int
  lastAccessedAt : Int
deriving Repr, DecidableEq

/-- `serializeRoom` from `roomStore.ts`; `now` is `Date.now()` at
serialization time (the source writes `lastAccessedAt: Date.now()`). -/
def serializeRoom (room : ServerRoom) (now : Int) : SerializedRoom :=
  { roomId := room.roomId
    adminToken := room.adminToken
    adminSessionId := room.adminSessionId
    settings := room.settings
    participants :=
      room.participants.map (fun e =>
        (e.1,
          { sessionId := e.2.sessionId
            displayName := e.2.displayName
            isAdmin := e.2.isAdmin
            isConnected := e.2.isConnected
            hasVoted := e.2.hasVoted }))
    votes := room.votes
    isRevealed := room.isRevealed
    timerStartedAt := room.timerStartedAt
    createdAt := room.createdAt
    ttl := room.ttl
    lastAccessedAt := now }

/-- `deserializeRoom` from `roomStore.ts`: socket handles come back empty and
the admin-disconnect timer comes back absent. -/
def deserializeRoom (data : SerializedRoom) : ServerRoom :=
  { roomId := data.roomId
    adminToken := data.adminToken
    adminSessionId := data.adminSessionId
    settings := data.settings
    participants :=
      data.participants.map (fun e =>
        (e.1,
          { sessionId := e.2.sessionId
            displayName := e.2.displayName
            isAdmin := e.2.isAdmin
            isConnected := e.2.isConnected
            hasVoted := e.2.hasVoted
            socketId := "" }))
    votes := data.votes
    isRevealed := data.isRevealed
    timerStartedAt := data.timerStartedAt
    createdAt := data.createdAt
    ttl := data.ttl
    lastAccessedAt := data.lastAccessedAt
    adminDisconnectTimer := none }

/-- `ROOM_TTL_SECONDS` from `roomStore.ts` (30 days). -/
def ROOM_TTL_SECONDS : Int := 30 * 24 * 60 * 60

/-- `USED_ID_TTL_SECONDS` from `roomStore.ts` (48 hours). -/
def USED_ID_TTL_SECONDS : Int := 48 * 60 * 60

/-- The durable store: one serialized record per live room identifier and a
set of reserved (recently deleted) identifier markers. -/
structure Store where
  rooms : List (String × SerializedRoom)
  usedIds : List String
deriving Repr, DecidableEq

/-- `isRoomIdAvailable` from `roomStore.ts`: neither a live room record nor
a reserved-identifier marker exists. -/
def isRoomIdAvailable (st : Store) (id : String) : Bool :=
  !(st.rooms.any (fun e => e.1 == id)) && !(st.usedIds.any (fun u => u == id))

/-- The fresh room record built by `createRoomWithId`; the random admin
token and `Date.now()` are explicit parameters. -/
def freshRoom (roomId adminSessionId adminToken : String) (now : Int) : ServerRoom :=
  { roomId := roomId
    adminToken := adminToken
    adminSessionId := adminSessionId
    settings := DEFAULT_SETTINGS
    participants := []
    votes := []
    isRevealed := false
    timerStartedAt := none
    createdAt := now
    ttl := ROOM_TTL_SECONDS * 1000
    lastAccessedAt := now
    adminDisconnectTimer := none }

/-- `createRoomWithId` from `roomStore.ts`: fails (no room) when the
identifier is live or reserved, otherwise persists and returns a fresh room
with exactly that identifier. -/
def createRoomWithId (st : Store) (roomId adminSessionId adminToken : String)
    (now : Int) : Option ServerRoom × Store :=
  if !(isRoomIdAvailable st roomId) then (none, st)
  else
    let room := freshRoom roomId adminSessionId adminToken now
    (some room, { st with rooms := JMap.set st.rooms roomId (serializeRoom room now) })

/-- `deleteRoom` from `roomStore.ts`: remove the live record, then write the
48-hour reserved-identifier marker. -/
def deleteRoom (st : Store) (roomId : String) : Store :=
  { rooms := st.rooms.filter (fun e => e.1 != roomId)
    usedIds :=
      if st.usedIds.any (fun u => u == roomId) then st.usedIds
      else st.usedIds ++ [roomId] }

/-- Invariant 2 of the data model: every vote key is a participant key. -/
def votesSubset (room : ServerRoom) : Bool :=
  room.votes.all (fun e => JMap.has room.participants e.1)

/-- Room well-formedness: every participant record is keyed by its own
session identifier (true of every room the code constructs). -/
def participantsWF (room : ServerRoom) : Bool :=
  room.participants.all (fun e => e.2.sessionId == e.1)

section MapLemmas

variable {α : Type}

/-- `has` agrees with `get` being defined. -/
theorem jmap_has_eq_isSome (m : List (String × α)) (k : String) :
    JMap.has m k = (JMap.get m k).isSome := by
  induction m with
  | nil => rfl
  | cons e rest ih =>
    by_cases h : e.1 == k
    · simp [JMap.has, JMap.get, List.any_cons, List.find?_cons, h]
    · simpa [JMap.has, JMap.get, List.any_cons, List.find?_cons, h] using ih

/-- After `set m k v`, key `k` is present. -/
theorem jmap_has_set_self (m : List (String × α)) (k : String) (v : α) :
    JMap.has (JMap.set m k v) k = true := by
  induction m with
  | nil => simp [JMap.set, JMap.has]
  | cons e rest ih =>
    by_cases h : e.1 == k
    · simp [JMap.set, JMap.has, h]
    · have h' : (e.1 == k) = false := by simpa using h
      simp only [JMap.set, h', Bool.false_eq_true, if_false]
      simp only [JMap.has, List.any_cons, h', Bool.false_or]
      simpa only [JMap.has] using ih

/-- After `set m k v`, key `k` maps to `v`. -/
theorem jmap_get_set_self (m : List (String × α)) (k : String) (v : α) :
    JMap.get (JMap.set m k v) k = some v := by
  induction m with
  | nil => simp [JMap.set, JMap.get]
  | cons e rest ih =>
    by_cases h : e.1 == k
    · simp [JMap.set, JMap.get, List.find?_cons, h]
    · simp [JMap.set, JMap.get, List.find?_cons, h] at ih ⊢
      exact ih

/-- Filtering keeps a present key as long as the predicate holds on every
entry carrying that key. -/
theorem jmap_has_filter (m : List (String × α)) (f : String × α → Bool) (k : String)
    (hmem : JMap.has m k = true) (hf : ∀ e ∈ m, e.1 = k → f e = true) :
    JMap.has (m.filter f) k = true := by
  induction m with
  | nil => simp [JMap.has] at hmem
  | cons e rest ih =>
    by_cases h : e.1 == k
    · have he : e.1 = k := by simpa using h
      have hfe : f e = true := hf e (by simp) he
      simp only [List.filter_cons, hfe, ite_true]
      simp [JMap.has, List.any_cons, h]
    · have h' : (e.1 == k) = false := by simpa using h
      have hmem' : JMap.has rest k = true := by
        simpa only [JMap.has, List.any_cons, h', Bool.false_or] using hmem
      have ih' := ih hmem' (fun e' he' hk => hf e' (by simp [he']) hk)
      cases hfe : f e
      · simpa only [List.filter_cons, hfe, Bool.false_eq_true, if_false] using ih'
      · simp only [List.filter_cons, hfe, ite_true]
        simp only [JMap.has, List.any_cons, h', Bool.false_or]
        simpa only [JMap.has] using ih'

/-- Deleting a different key keeps a present key present. -/
theorem jmap_has_del_ne (m : List (String × α)) (k t : String)
    (hne : t ≠ k) (hmem : JMap.has m k = true) :
    JMap.has (JMap.del m t) k = true := by
  refine jmap_has_filter m _ k hmem (fun e _ hk => ?_)
  simp [hk]
  exact fun h => hne h.symm

/-- Deleting an absent key is a no-op. -/
theorem jmap_del_of_not_has (m : List (String × α)) (k : String)
    (h : JMap.has m k = false) : JMap.del m k = m := by
  induction m with
  | nil => rfl
  | cons e rest ih =>
    have h12 : (e.1 == k) = false ∧ JMap.has rest k = false := by
      simpa only [JMap.has, List.any_cons, Bool.or_eq_false_iff] using h
    have hne : (e.1 != k) = true := by simp [bne, h12.1]
    simp only [JMap.del, List.filter_cons, hne, ite_true]
    have := ih h12.2
    simpa only [JMap.del] using congrArg (List.cons e) this

/-- Writing back the value `get` returned leaves the map unchanged. -/
theorem jmap_set_get_eq (m : List (String × α)) (k : String) (v : α)
    (h : JMap.get m k = some v) : JMap.set m k v = m := by
  induction m with
  | nil => simp [JMap.get] at h
  | cons e rest ih =>
    by_cases hk : e.1 == k
    · have he : e.1 = k := by simpa using hk
      have : e.2 = v := by
        simp [JMap.get, List.find?_cons, hk] at h
        exact h
      simp [JMap.set, hk, ← he, ← this]
    · have h' : JMap.get rest k = some v := by
        simpa [JMap.get, List.find?_cons, hk] using h
      simp [JMap.set, hk, ih h']

/-- A key `get` misses is carried by no entry. -/
theorem jmap_keys_ne_of_get_none (m : List (String × α)) (k : String)
    (h : JMap.get m k = none) : ∀ e ∈ m, e.1 ≠ k := by
  intro e he hk
  have hf : m.find? (fun e => e.1 == k) = none := by
    simpa only [JMap.get, Option.map_eq_none'] using h
  have := List.find?_eq_none.mp hf e he
  simp [hk] at this

end MapLemmas

/-! Concrete fixtures used by the counterexamples and witnesses. -/

/-- A disconnected admin participant with session `a` who has voted. -/
def staleAdmin : ServerParticipant :=
  { sessionId := "a"
    displayName := "Admin"
    isAdmin := true
    isConnected := false
    hasVoted := true
    socketId := "" }

/-- A connected admin participant with session `a`. -/
def liveAdmin : ServerParticipant :=
  { sessionId := "a"
    displayName := "Admin"
    isAdmin := true
    isConnected := true
    hasVoted := false
    socketId := "sockA" }

/-- A connected ordinary participant. -/
def member (sid : String) : ServerParticipant :=
  { sessionId := sid
    displayName := sid
    isAdmin := false
    isConnected := true
    hasVoted := false
    socketId := "sock" }

/-- A baseline room with admin token `T`. -/
def baseRoom : ServerRoom :=
  { roomId := "ROOMAAAAAAAA"
    adminToken := "T"
    adminSessionId := "a"
    settings := DEFAULT_SETTINGS
    participants := [("a", liveAdmin)]
    votes := []
    isRevealed := false
    timerStartedAt := none
    createdAt := 0
    ttl := 0
    lastAccessedAt := 0
    adminDisconnectTimer := none }

/-- C1 fixture: the admin row is stale (disconnected) and has a vote on
record; the admin-disconnect grace timer is pending. -/
def staleAdminRoom : ServerRoom :=
  { baseRoom with
      participants := [("a", staleAdmin)]
      votes := [("a", 5)]
      adminDisconnectTimer := some 0 }

/-- C1 fixture: the admin reconnects with a fresh session `b` presenting
the admin token. -/
def adminRejoin : JoinRoomPayload :=
  { roomId := "ROOMAAAAAAAA"
    displayName := "Admin"
    sessionId := "b"
    adminToken := some "T" }

/-- C1: the vote-keys-are-participant-keys invariant held before the
join-room event, yet the admin-token reconnect branch (new session `b`,
stale admin row `a` holding a vote) deletes the old admin participant row
without deleting its vote: afterwards `a` is no longer a participant key
but is still a vote key, so the invariant is violated by the handler. -/
theorem claim_c1_bug :
    votesSubset staleAdminRoom = true
    ∧ (joinRoomHandler (some staleAdminRoom) "sock2" adminRejoin).1.map votesSubset
        = some false
    ∧ (joinRoomHandler (some staleAdminRoom) "sock2" adminRejoin).1.map
        (fun r => (JMap.has r.participants "a", JMap.has r.votes "a"))
        = some (false, true) :=
  ⟨rfl, rfl, rfl⟩

/-- C2: with `isRevealed = false`, the room-state snapshot has an empty
votes list and carries only socket-stripped participants, it is unchanged
under any substitution of the numeric vote values (same keys), and the
vote handler emits at most a `vote-cast` event carrying only the session
identifier and the `hasVoted` flag — never a vote value. -/
theorem claim_c2_no_vote_leak (r : ServerRoom) (vs : List (String × Int))
    (hr : r.isRevealed = false)
    (hkeys : vs.map Prod.fst = r.votes.map Prod.fst) :
    buildRoomState (some r) = buildRoomState (some { r with votes := vs })
    ∧ (buildRoomState (some r)).map RoomState.votes = some []
    ∧ (buildRoomState (some r)).map RoomState.participants
        = some (r.participants.map (fun e => stripSocket e.2))
    ∧ ∀ sid v, (voteHandler (some r) sid v).2
        = if JMap.has r.participants sid then [(Dest.room, OutEvent.voteCast sid true)]
          else [] := by
  refine ⟨?_, ?_, ?_, ?_⟩
  · simp [buildRoomState, buildRoomStateCore, hr]
  · simp [buildRoomState, buildRoomStateCore, hr]
  · simp [buildRoomState, buildRoomStateCore]
  · intro sid v
    cases hg : JMap.get r.participants sid with
    | none => simp [voteHandler, hr, hg, jmap_has_eq_isSome]
    | some p => simp [voteHandler, hr, hg, jmap_has_eq_isSome]

/-- C2 fixture: an unrevealed room holding one vote. -/
def hiddenVoteRoom : ServerRoom :=
  { baseRoom with
      participants := [("a", liveAdmin), ("u", member "u")]
      votes := [("u", 5)] }

/-- C2 witness: the hyperproperty instantiated at a concrete unrevealed
room, substituting vote value 5 by 7. -/
theorem claim_c2_no_vote_leak_witness :
    buildRoomState (some hiddenVoteRoom)
        = buildRoomState (some { hiddenVoteRoom with votes := [("u", 7)] })
    ∧ (buildRoomState (some hiddenVoteRoom)).map RoomState.votes = some []
    ∧ (buildRoomState (some hiddenVoteRoom)).map RoomState.participants
        = some (hiddenVoteRoom.participants.map (fun e => stripSocket e.2))
    ∧ ∀ sid v, (voteHandler (some hiddenVoteRoom) sid v).2
        = if JMap.has hiddenVoteRoom.participants sid then
            [(Dest.room, OutEvent.voteCast sid true)]
          else [] :=
  claim_c2_no_vote_leak hiddenVoteRoom [("u", 7)] rfl rfl

/-- C10: in an unrevealed room, a vote by a known session stores the
event's numeric value verbatim and marks the participant as having voted,
for any value whatsoever — there is no hypothesis relating `v` to
`settings.estimateOptions`, so no validation takes place. -/
theorem claim_c10_unvalidated_vote (r : ServerRoom) (sid : String) (v : Int)
    (p : ServerParticipant)
    (hr : r.isRevealed = false)
    (hp : JMap.get r.participants sid = some p) :
    voteHandler (some r) sid v =
      (some { r with
                votes := JMap.set r.votes sid v
                participants := JMap.set r.participants sid { p with hasVoted := true } },
        [(Dest.room, OutEvent.voteCast sid true)])
    ∧ JMap.get (JMap.set r.votes sid v) sid = some v := by
  constructor
  · simp [voteHandler, hr, hp]
  · exact jmap_get_set_self r.votes sid v

/-- C10 witness: value 999 is not among the configured estimate options of
the fixture room, yet it is stored verbatim. -/
theorem claim_c10_unvalidated_vote_witness :
    ((999 : Int) ∈ hiddenVoteRoom.settings.estimateOptions → False)
    ∧ (voteHandler (some hiddenVoteRoom) "u" 999 =
        (some { hiddenVoteRoom with
                  votes := JMap.set hiddenVoteRoom.votes "u" 999
                  participants := JMap.set hiddenVoteRoom.participants "u"
                    { member "u" with hasVoted := true } },
          [(Dest.room, OutEvent.voteCast "u" true)])
      ∧ JMap.get (JMap.set hiddenVoteRoom.votes "u" 999) "u" = some 999) :=
  ⟨by decide, claim_c10_unvalidated_vote hiddenVoteRoom "u" 999 (member "u") rfl rfl⟩

/-- C3 counterexample: a `start-timer` event with a wrong admin token is
dropped silently — the handler emits nothing at all, in particular no
authorization-failure event to the caller, contrary to the claim. -/
theorem claim_c3_counterexample :
    startTimerHandler (some baseRoom) (some "WRONG") 100 = (some baseRoom, [])
    ∧ ¬((Dest.caller, OutEvent.errorMsg ("Not authorized"))
          ∈ (startTimerHandler (some baseRoom) (some "WRONG") 100).2) := by
  exact ⟨rfl, by decide⟩

/-- C3 amended: every listed handler performs no mutation when the caller
lacks authority and never broadcasts a failure; `reveal`, `reset`,
`update-settings`, `delete-estimate` (of another's vote), `clear-user` and
`clear-all-participants` report `error{"Not authorized"}` to the caller
only, while `start-timer` and `stop-timer` fail silently with no error
event. -/
theorem claim_c3_amended (r : ServerRoom) (tok : Option String)
    (callerSession : Option String) (target : String) (patch : SettingsPatch) (now : Int)
    (htok : isAdmin r tok = false)
    (hshow : r.settings.allowOthersToShowEstimates = false)
    (hdel : r.settings.allowOthersToDeleteEstimates = false)
    (hclear : r.settings.allowOthersToClearUsers = false)
    (hown : (match callerSession with
             | some s => s == target
             | none => false) = false) :
    revealHandler (some r) tok
        = (some r, [(Dest.caller, OutEvent.errorMsg ("Not authorized"))])
    ∧ resetHandler (some r) tok
        = (some r, [(Dest.caller, OutEvent.errorMsg ("Not authorized"))])
    ∧ updateSettingsHandler (some r) tok patch
        = (some r, [(Dest.caller, OutEvent.errorMsg ("Not authorized"))])
    ∧ deleteEstimateHandler (some r) callerSession tok target
        = (some r, [(Dest.caller, OutEvent.errorMsg ("Not authorized"))])
    ∧ clearUserHandler (some r) tok target
        = (some r, [(Dest.caller, OutEvent.errorMsg ("Not authorized"))])
    ∧ clearAllParticipantsHandler (some r) tok
        = (some r, [(Dest.caller, OutEvent.errorMsg ("Not authorized"))])
    ∧ startTimerHandler (some r) tok now = (some r, [])
    ∧ stopTimerHandler (some r) tok = (some r, []) := by
  refine ⟨?_, ?_, ?_, ?_, ?_, ?_, ?_, ?_⟩
  · simp [revealHandler, htok, hshow]
  · simp [resetHandler, htok, hdel]
  · simp [updateSettingsHandler, htok]
  · simp [deleteEstimateHandler, htok, hdel, hown]
  · simp [clearUserHandler, htok, hclear]
  · simp [clearAllParticipantsHandler, htok]
  · simp [startTimerHandler, htok]
  · simp [stopTimerHandler, htok]

/-- C3 witness: the amended statement at a concrete room with default
settings (all delegation flags off) and a wrong token. -/
theorem claim_c3_amended_witness :
    revealHandler (some baseRoom) (some "WRONG")
        = (some baseRoom, [(Dest.caller, OutEvent.errorMsg ("Not authorized"))])
    ∧ resetHandler (some baseRoom) (some "WRONG")
        = (some baseRoom, [(Dest.caller, OutEvent.errorMsg ("Not authorized"))])
    ∧ updateSettingsHandler (some baseRoom) (some "WRONG") {}
        = (some baseRoom, [(Dest.caller, OutEvent.errorMsg ("Not authorized"))])
    ∧ deleteEstimateHandler (some baseRoom) (some "u") (some "WRONG") "a"
        = (some baseRoom, [(Dest.caller, OutEvent.errorMsg ("Not authorized"))])
    ∧ clearUserHandler (some baseRoom) (some "WRONG") "a"
        = (some baseRoom, [(Dest.caller, OutEvent.errorMsg ("Not authorized"))])
    ∧ clearAllParticipantsHandler (some baseRoom) (some "WRONG")
        = (some baseRoom, [(Dest.caller, OutEvent.errorMsg ("Not authorized"))])
    ∧ startTimerHandler (some baseRoom) (some "WRONG") 0 = (some baseRoom, [])
    ∧ stopTimerHandler (some baseRoom) (some "WRONG") = (some baseRoom, []) :=
  claim_c3_amended baseRoom (some "WRONG") (some "u") "a" {} 0
    (by decide) rfl rfl rfl (by decide)

/-- C5 fixture: a revealed room with a vote and a running timer. -/
def timedRoom : ServerRoom :=
  { baseRoom with
      participants := [("a", liveAdmin), ("u", { member "u" with hasVoted := true })]
      votes := [("u", 5)]
      isRevealed := true
      timerStartedAt := some 5 }

/-- C5 fixture: a settings patch changing the estimate options. -/
def optionsPatch : SettingsPatch :=
  { estimateOptions := some [1, 2, 3] }

/-- C5 counterexample: an admin `update-settings` changing the estimate
options leaves `timerStartedAt` untouched, while the reset handler clears
it — so the mutation is not equivalent to a reset as performed by the
reset handler. -/
theorem claim_c5_counterexample :
    (updateSettingsHandler (some timedRoom) (some "T") optionsPatch).1.map
        (fun r => r.timerStartedAt) = some (some 5)
    ∧ (resetHandler (some timedRoom) (some "T")).1.map
        (fun r => r.timerStartedAt) = some none
    ∧ (updateSettingsHandler (some timedRoom) (some "T") optionsPatch).1
        ≠ (resetHandler (some timedRoom) (some "T")).1.map
            (fun r => { r with settings := applySettingsPatch r.settings optionsPatch }) := by
  exact ⟨rfl, rfl, by decide⟩

/-- C5 amended: an admin `update-settings` whose estimate options differ
from the current ones clears all votes, sets every participant's
`hasVoted` to false and un-reveals, atomically with the settings update —
but, unlike the reset handler, it leaves `timerStartedAt` unchanged. -/
theorem claim_c5_amended (r : ServerRoom) (tok : Option String) (patch : SettingsPatch)
    (opts : List Int)
    (htok : isAdmin r tok = true)
    (hopts : patch.estimateOptions = some opts)
    (hne : opts ≠ r.settings.estimateOptions) :
    updateSettingsHandler (some r) tok patch =
      (some { r with
                votes := []
                isRevealed := false
                participants :=
                  r.participants.map (fun e => (e.1, { e.2 with hasVoted := false }))
                settings := applySettingsPatch r.settings patch },
        [(Dest.room, OutEvent.settingsUpdated (applySettingsPatch r.settings patch)),
         (Dest.room, OutEvent.votesReset)]) := by
  have hne' : (opts == r.settings.estimateOptions) = false := by
    simpa using hne
  simp [updateSettingsHandler, htok, hopts, hne']

/-- C5 witness: the amended statement at the concrete fixture room. -/
theorem claim_c5_amended_witness :
    updateSettingsHandler (some timedRoom) (some "T") optionsPatch =
      (some { timedRoom with
                votes := []
                isRevealed := false
                participants :=
                  timedRoom.participants.map (fun e => (e.1, { e.2 with hasVoted := false }))
                settings := applySettingsPatch timedRoom.settings optionsPatch },
        [(Dest.room, OutEvent.settingsUpdated (applySettingsPatch timedRoom.settings optionsPatch)),
         (Dest.room, OutEvent.votesReset)]) :=
  claim_c5_amended timedRoom (some "T") optionsPatch [1, 2, 3] (by decide) rfl (by decide)

/-- C8 fixture: a room whose stale admin row still holds a vote. -/
def adminTargetRoom : ServerRoom :=
  { baseRoom with
      participants := [("a", staleAdmin), ("u", member "u")]
      votes := [("a", 5)] }

/-- C8 counterexample: `clear-user` presented the room's admin token
verbatim, targeting the admin-flagged participant `a`, refuses with
`error{"Cannot remove admin"}` and removes nothing — the admin token does
not grant clearing a target regardless of its flags. -/
theorem claim_c8_counterexample :
    clearUserHandler (some adminTargetRoom) (some "T") "a"
        = (some adminTargetRoom, [(Dest.caller, OutEvent.errorMsg ("Cannot remove admin"))])
    ∧ JMap.has adminTargetRoom.participants "a" = true
    ∧ JMap.has adminTargetRoom.votes "a" = true := by
  exact ⟨rfl, rfl, rfl⟩

/-- C8 amended: the admin token grants removal of any target present in
the participants map whose `isAdmin` flag is false (regardless of the
caller's connection or session state); admin-flagged targets are refused
with `error{"Cannot remove admin"}`. -/
theorem claim_c8_amended (r : ServerRoom) (tok : Option String) (target : String)
    (tp : ServerParticipant)
    (htok : isAdmin r tok = true)
    (hmem : JMap.get r.participants target = some tp)
    (hnadm : tp.isAdmin = false) :
    clearUserHandler (some r) tok target =
      (some { r with
                participants := JMap.del r.participants target
                votes := JMap.del r.votes target },
        [(Dest.room, OutEvent.participantLeft target)]) := by
  simp [clearUserHandler, htok, hmem, hnadm]

/-- C8 witness: the amended statement clearing the ordinary participant
`u` with the admin token. -/
theorem claim_c8_amended_witness :
    clearUserHandler (some adminTargetRoom) (some "T") "u" =
      (some { adminTargetRoom with
                participants := JMap.del adminTargetRoom.participants "u"
                votes := JMap.del adminTargetRoom.votes "u" },
        [(Dest.room, OutEvent.participantLeft "u")]) :=
  claim_c8_amended adminTargetRoom (some "T") "u" (member "u") (by decide) rfl rfl

/-- C9 counterexample: deleting a non-existent estimate (authorized as the
caller's own) still broadcasts `vote-cast{hasVoted:false}` to the room,
and stopping an already-stopped timer with the admin token still
broadcasts `timer-stopped` — both claims of "no broadcast" are false. -/
theorem claim_c9_counterexample :
    (deleteEstimateHandler (some baseRoom) (some "a") none "a").2
        = [(Dest.room, OutEvent.voteCast "a" false)]
    ∧ (deleteEstimateHandler (some baseRoom) (some "a") none "a").2 ≠ []
    ∧ (stopTimerHandler (some baseRoom) (some "T")).2 = [(Dest.room, OutEvent.timerStopped)]
    ∧ (stopTimerHandler (some baseRoom) (some "T")).2 ≠ [] := by
  exact ⟨rfl, by decide, rfl, by decide⟩

/-- C9 amended: deleting a non-existent estimate (here: the caller's own)
and stopping an already-stopped timer (with the admin token) surface no
error and leave the room unchanged, but each still broadcasts its
notification event (`vote-cast{hasVoted:false}`, resp. `timer-stopped`)
to the room. -/
theorem claim_c9_amended (r : ServerRoom) (tok : Option String) (target : String)
    (callerSession : Option String)
    (hown : callerSession = some target)
    (hnovote : JMap.has r.votes target = false)
    (hflag : (JMap.get r.participants target).elim true (fun tp => !tp.hasVoted) = true)
    (htok : isAdmin r tok = true)
    (htimer : r.timerStartedAt = none) :
    deleteEstimateHandler (some r) callerSession tok target
        = (some r, [(Dest.room, OutEvent.voteCast target false)])
    ∧ stopTimerHandler (some r) tok = (some r, [(Dest.room, OutEvent.timerStopped)]) := by
  constructor
  · have hdel : JMap.del r.votes target = r.votes := jmap_del_of_not_has r.votes target hnovote
    cases hg : JMap.get r.participants target with
    | none =>
      simp [deleteEstimateHandler, hown, hg, hdel]
    | some tp =>
      have hv : tp.hasVoted = false := by
        simpa [hg] using hflag
      have heta : { tp with hasVoted := false } = tp := by
        cases tp
        simp_all
      have hset : JMap.set r.participants target { tp with hasVoted := false }
          = r.participants := by
        rw [heta]
        exact jmap_set_get_eq r.participants target tp hg
      simp [deleteEstimateHandler, hown, hg, hdel, hset]
  · have : { r with timerStartedAt := none } = r := by
      cases r
      simp_all
    simp [stopTimerHandler, htok, this]

/-- C9 witness: the amended statement at a concrete room with no votes and
no running timer. -/
theorem claim_c9_amended_witness :
    deleteEstimateHandler (some baseRoom) (some "a") (some "T") "a"
        = (some baseRoom, [(Dest.room, OutEvent.voteCast "a" false)])
    ∧ stopTimerHandler (some baseRoom) (some "T")
        = (some baseRoom, [(Dest.room, OutEvent.timerStopped)]) :=
  claim_c9_amended baseRoom (some "T") "a" (some "a") rfl rfl (by decide) (by decide) rfl

/-- C6 fixture: a room serialized while its recorded `lastAccessedAt` (0)
differs from the serialization instant (1). -/
def agedRoom : ServerRoom :=
  { baseRoom with adminDisconnectTimer := some 0 }

/-- C6 counterexample: serializing then deserializing does not preserve
every field except the socket handles and the timer — `lastAccessedAt`
comes back as the serialization instant (1), not the original value (0). -/
theorem claim_c6_counterexample :
    deserializeRoom (serializeRoom agedRoom 1)
        ≠ { agedRoom with
              participants :=
                agedRoom.participants.map (fun e => (e.1, { e.2 with socketId := "" }))
              adminDisconnectTimer := none }
    ∧ (deserializeRoom (serializeRoom agedRoom 1)).lastAccessedAt = 1
    ∧ agedRoom.lastAccessedAt = 0 := by
  exact ⟨by decide, rfl, rfl⟩

/-- C6 amended: serializing then deserializing a room preserves every
field except each participant's socket handle (reset to the empty
string), the admin-disconnect timer (reset to none) and `lastAccessedAt`
(overwritten with the serialization instant); in particular every
participant's `isConnected` flag is preserved verbatim. -/
theorem claim_c6_amended (r : ServerRoom) (now : Int) :
    deserializeRoom (serializeRoom r now) =
      { r with
          participants := r.participants.map (fun e => (e.1, { e.2 with socketId := "" }))
          adminDisconnectTimer := none
          lastAccessedAt := now } := by
  have hp : ∀ l : List (String × ServerParticipant),
      (l.map (fun e => (e.1,
          ({ sessionId := e.2.sessionId
             displayName := e.2.displayName
             isAdmin := e.2.isAdmin
             isConnected := e.2.isConnected
             hasVoted := e.2.hasVoted } : SerializedParticipant)))).map
        (fun e => (e.1,
          ({ sessionId := e.2.sessionId
             displayName := e.2.displayName
             isAdmin := e.2.isAdmin
             isConnected := e.2.isConnected
             hasVoted := e.2.hasVoted
             socketId := "" } : ServerParticipant)))
      = l.map (fun e => (e.1, { e.2 with socketId := "" })) := by
    intro l
    induction l with
    | nil => rfl
    | cons e rest ih =>
      cases e with
      | mk k p =>
        cases p
        simpa using ih
  simp only [serializeRoom, deserializeRoom]
  rw [hp]

/-- C7: `createRoomWithId` returns no room exactly when the identifier is
live or reserved; a returned room carries exactly the requested
identifier; and after `deleteRoom` the reservation marker makes an
explicit create targeting the identifier fail. -/
theorem claim_c7_reserved_id (st : Store) (id sid tok : String) (now : Int) :
    ((createRoomWithId st id sid tok now).1.isNone
        = (st.rooms.any (fun e => e.1 == id) || st.usedIds.any (fun u => u == id)))
    ∧ ((createRoomWithId st id sid tok now).1.all (fun room => room.roomId == id) = true)
    ∧ (createRoomWithId (deleteRoom st id) id sid tok now).1 = none := by
  refine ⟨?_, ?_, ?_⟩
  · cases ha : st.rooms.any (fun e => e.1 == id)
      <;> cases hb : st.usedIds.any (fun u => u == id)
      <;> simp [createRoomWithId, isRoomIdAvailable, ha, hb]
  · cases ha : st.rooms.any (fun e => e.1 == id)
      <;> cases hb : st.usedIds.any (fun u => u == id)
      <;> simp [createRoomWithId, isRoomIdAvailable, freshRoom, ha, hb]
  · cases hu : st.usedIds.any (fun u => u == id)
      <;> simp [createRoomWithId, isRoomIdAvailable, deleteRoom, hu, List.any_append]

/-- C4 fixture: a room already holding ten participant rows, none of them
session `b`. -/
def fullRoom : ServerRoom :=
  { baseRoom with
      participants :=
        [("a", liveAdmin), ("p2", member "p2"), ("p3", member "p3"), ("p4", member "p4"),
         ("p5", member "p5"), ("p6", member "p6"), ("p7", member "p7"), ("p8", member "p8"),
         ("p9", member "p9"), ("p10", member "p10")] }

/-- C4 counterexample: a join presenting the room's admin token with a
fresh session is rejected with `error{"Room is full (max 10
participants)"}` when ten rows exist — no participant row is created and
no room-state is sent, so the admin token does not admit over the cap. -/
theorem claim_c4_counterexample :
    joinRoomHandler (some fullRoom) "sock2" adminRejoin
        = (some fullRoom,
           [(Dest.caller, OutEvent.errorMsg ("Room is full (max 10 participants)"))])
    ∧ JMap.has fullRoom.participants "b" = false := by
  exact ⟨rfl, rfl⟩

/-- The participant being kept by the admin-reconnect cleanup survives it. -/
theorem jmap_has_keepConnectedOr (parts : List (String × ServerParticipant)) (k : String)
    (h : JMap.has parts k = true) : JMap.has (keepConnectedOr k parts) k = true := by
  refine jmap_has_filter parts _ k h (fun e he hk => ?_)
  simp [hk]

/-- C4 amended: a join presenting the room's admin token is never blocked
by the no-admin gate, and is admitted — the session ends up in the
participants map and a room-state snapshot is sent to the caller —
whenever its session already has a row (reconnection) or fewer than ten
rows exist; a token-bearing join with a fresh session is still subject to
the 10-participant cap. -/
theorem claim_c4_amended (r : ServerRoom) (sock : String) (p : JoinRoomPayload)
    (hwf : participantsWF r = true)
    (htok : isAdmin r p.adminToken = true)
    (hcap : JMap.has r.participants p.sessionId = true ∨ r.participants.length < 10) :
    ∃ r1, (joinRoomHandler (some r) sock p).1 = some r1
      ∧ JMap.has r1.participants p.sessionId = true
      ∧ (Dest.caller, OutEvent.roomState (buildRoomStateCore r1))
          ∈ (joinRoomHandler (some r) sock p).2 := by
  cases hex : JMap.get r.participants p.sessionId with
  | some ex =>
    simp only [joinRoomHandler, hex, htok, Bool.not_true, Bool.false_and, Bool.not_false,
      if_false, Option.isSome_some, Option.isNone_some, Bool.false_eq_true]
    cases hb : (ex.isAdmin && r.adminDisconnectTimer.isSome) with
    | true =>
      simp only [hb, if_true, ite_true]
      refine ⟨_, rfl, ?_, ?_⟩
      · exact jmap_has_keepConnectedOr _ _ (jmap_has_set_self _ _ _)
      · simp
    | false =>
      simp only [hb, Bool.false_eq_true, if_false, ite_false]
      refine ⟨_, rfl, ?_, ?_⟩
      · exact jmap_has_set_self _ _ _
      · simp
  | none =>
    have hhas : JMap.has r.participants p.sessionId = false := by
      rw [jmap_has_eq_isSome, hex]
      rfl
    have hlen : r.participants.length < 10 := by
      rcases hcap with h | h
      · rw [hhas] at h
        exact absurd h (by simp)
      · exact h
    have hlen10 : decide (r.participants.length ≥ 10) = false :=
      decide_eq_false (by omega)
    simp only [joinRoomHandler, hex, htok, Bool.not_true, Bool.false_and, Bool.not_false,
      if_false, Option.isNone_none, Bool.true_and, hlen10, Bool.false_eq_true]
    cases hfind : List.find? (fun e => e.2.isAdmin) r.participants with
    | none =>
      simp only [hfind, Option.map_none']
      refine ⟨_, rfl, ?_, ?_⟩
      · exact jmap_has_set_self _ _ _
      · simp
    | some fe =>
      have hmemfe : fe ∈ r.participants := List.mem_of_find?_eq_some hfind
      have hkey : fe.2.sessionId = fe.1 := by
        have := List.all_eq_true.mp hwf fe hmemfe
        simpa using this
      have hne : fe.2.sessionId ≠ p.sessionId := by
        rw [hkey]
        exact jmap_keys_ne_of_get_none r.participants p.sessionId hex fe hmemfe
      simp only [hfind, Option.map_some']
      cases hconn : fe.2.isConnected with
      | true =>
        simp only [hconn, Bool.not_true, Bool.false_eq_true, if_false, ite_false]
        refine ⟨_, rfl, ?_, ?_⟩
        · exact jmap_has_set_self _ _ _
        · simp
      | false =>
        simp only [hconn, Bool.not_false, if_true, ite_true]
        cases hti : r.adminDisconnectTimer with
        | none =>
          simp only [hti, Option.isSome_none, Bool.false_eq_true, if_false, ite_false]
          refine ⟨_, rfl, ?_, ?_⟩
          · exact jmap_has_del_ne _ _ _ hne (jmap_has_set_self _ _ _)
          · simp
        | some t =>
          simp only [hti, Option.isSome_some, if_true, ite_true]
          refine ⟨_, rfl, ?_, ?_⟩
          · exact jmap_has_keepConnectedOr _ _
              (jmap_has_del_ne _ _ _ hne (jmap_has_set_self _ _ _))
          · simp

/-- C4 witness: the amended statement at a room with one stale admin row
(no connected admin) joined by the token-bearing admin under a fresh
session. -/
theorem claim_c4_amended_witness :
    ∃ r1, (joinRoomHandler (some staleAdminRoom) "sock2" adminRejoin).1 = some r1
      ∧ JMap.has r1.participants adminRejoin.sessionId = true
      ∧ (Dest.caller, OutEvent.roomState (buildRoomStateCore r1))
          ∈ (joinRoomHandler (some staleAdminRoom) "sock2" adminRejoin).2 :=
  claim_c4_amended staleAdminRoom "sock2" adminRejoin (by decide) (by decide)
    (Or.inr (by decide))

end PlanningPoker
